import Mathlib

/-!
Verification development for the server-side mutation pipeline in
`src/app/lib/actions.ts` (Next.js invoices application).

The TypeScript source is shallowly embedded as pure Lean functions:
* raw form data (`FormData.get`) is a per-field `Option String`
  (`none` models the `null` returned for an absent field);
* the zod schemas (`FormSchema`, `FormcustumersSchema` and their
  `.omit` variants `CreateInvoice`, `UpdateInvoice`, `CreateCustomers`,
  `UpdateCustomer`) become total parse functions returning either a
  typed record or per-field error-message lists, mirroring
  `safeParse` + `error.flatten().fieldErrors`;
* the relational store is a pair of row lists; each parameterized SQL
  statement becomes an explicit list operation;
* a `sql` call that throws is modelled by an injected `Option DbError`
  fault per statement; the caught value's message
  (`error instanceof Error ? error.message : ''`) is `DbError.errMsg`;
* `revalidatePath` is logged into a list of invalidated paths, and
  `redirect` is a terminal outcome constructor;
* the ambient clock (`new Date().toISOString().split('T')[0]`) and the
  database-assigned row identifier of an INSERT are explicit `today` /
  `freshId` parameters.
-/

/-- A value read from a form: `none` models the `null` that
`formData.get` returns for an absent field, `some s` a string field. -/
abbrev FormVal : Type := Option String

/-- Digit list to natural number, most significant first. -/
def digitsToNat (l : List Char) : Nat :=
  l.foldl (fun a c => a * 10 + (c.toNat - 48)) 0

/-- Leading and trailing whitespace removed (the trimming JavaScript
`Number()` applies to its string argument). -/
def trimChars (cs : List Char) : List Char :=
  ((cs.dropWhile Char.isWhitespace).reverse.dropWhile Char.isWhitespace).reverse

/-- Unsigned decimal literal (`"50"`, `"1.25"`, `".5"`, `"3."`);
`none` models NaN. -/
def parseUnsignedDecimal (cs : List Char) : Option ℚ :=
  let intPart := cs.takeWhile Char.isDigit
  let rest := cs.dropWhile Char.isDigit
  match rest with
  | [] => if intPart = [] then none else some (digitsToNat intPart : ℚ)
  | '.' :: frac =>
      if frac.all Char.isDigit ∧ (intPart ≠ [] ∨ frac ≠ []) then
        some ((digitsToNat intPart : ℚ) +
              (digitsToNat frac : ℚ) / ((10 : ℚ) ^ frac.length))
      else none
  | _ => none

/-- Signed decimal literal; `none` models NaN. -/
def parseSignedDecimal (cs : List Char) : Option ℚ :=
  match cs with
  | '-' :: rest => (parseUnsignedDecimal rest).map Neg.neg
  | '+' :: rest => parseUnsignedDecimal rest
  | other => parseUnsignedDecimal other

/-- Models the JavaScript `Number()` coercion used by `z.coerce.number()`
on form values, restricted to optional-sign decimal literals:
`null` and the empty/whitespace-only string coerce to `0`; any other
string that is not a decimal literal is NaN (`none`). -/
def jsNumber : FormVal → Option ℚ
  | none => some 0
  | some s =>
      let t := trimChars s.data
      if t = [] then some 0 else parseSignedDecimal t

/-- Raw input assembled for `CreateInvoice.safeParse` /
`UpdateInvoice.safeParse` from `formData`. -/
structure RawInvoiceForm where
  customerId : FormVal
  amount : FormVal
  status : FormVal
deriving DecidableEq

/-- Raw input assembled for `CreateCustomers.safeParse` /
`UpdateCustomer.safeParse` from `formData`. -/
structure RawCustomerForm where
  name : FormVal
  email : FormVal
  image_url : FormVal
deriving DecidableEq

/-- `error.flatten().fieldErrors` shape for the invoice schema. -/
structure InvoiceFieldErrors where
  customerId : List String
  amount : List String
  status : List String
deriving DecidableEq

/-- `error.flatten().fieldErrors` shape for the customer schema. -/
structure CustomerFieldErrors where
  name : List String
  email : List String
  image_url : List String
deriving DecidableEq

/-- Errors of `customerId: z.string({invalid_type_error: 'Please select
a customer.'})` on a raw form value. -/
def customerIdErrors : FormVal → List String
  | none => ["Please select a customer."]
  | some _ => []

/-- Errors of `amount: z.coerce.number().gt(0, {message: 'Please enter
an amount greater than $0.'})` on a raw form value: NaN is a type
error, a coerced value `≤ 0` violates `gt`. -/
def amountErrors (v : FormVal) : List String :=
  match jsNumber v with
  | none => ["Expected number, received nan"]
  | some q => if q > 0 then [] else ["Please enter an amount greater than $0."]

/-- Errors of `status: z.enum(['pending','paid'], {invalid_type_error:
'Please select an invoice status.'})` on a raw form value. -/
def statusErrors : FormVal → List String
  | none => ["Please select an invoice status."]
  | some s =>
      if s = "pending" ∨ s = "paid" then []
      else ["Invalid enum value. Expected 'pending' | 'paid', received '"
            ++ s ++ "'"]

/-- Errors of a plain `z.string()` field (customer schema): only a
missing (null) value is rejected; any string, including `""`, passes. -/
def requiredStringErrors : FormVal → List String
  | none => ["Expected string, received null"]
  | some _ => []

/-- Result of `CreateInvoice.safeParse` / `UpdateInvoice.safeParse`
(both schemas omit `id`, and `date` is omitted too, so they validate
the same three fields). -/
inductive InvoiceParse
  | failure (errs : InvoiceFieldErrors)
  | success (customerId : String) (amount : ℚ) (status : String)
deriving DecidableEq

/-- `safeParse` of the invoice schema on raw form data: collects the
field errors of all three fields; succeeds only when every field list
is empty. -/
def parseInvoiceForm (fd : RawInvoiceForm) : InvoiceParse :=
  match fd.customerId, jsNumber fd.amount, fd.status with
  | some c, some q, some st =>
      if q > 0 ∧ (st = "pending" ∨ st = "paid") then
        .success c q st
      else
        .failure ⟨[], amountErrors fd.amount, statusErrors fd.status⟩
  | _, _, _ =>
      .failure ⟨customerIdErrors fd.customerId, amountErrors fd.amount,
                statusErrors fd.status⟩

/-- Result of `CreateCustomers.safeParse` / `UpdateCustomer.safeParse`. -/
inductive CustomerParse
  | failure (errs : CustomerFieldErrors)
  | success (name : String) (email : String) (image_url : String)
deriving DecidableEq

/-- `safeParse` of the customer schema on raw form data: every field is
a plain `z.string()`, so only absent (null) fields fail. -/
def parseCustomerForm (fd : RawCustomerForm) : CustomerParse :=
  match fd.name, fd.email, fd.image_url with
  | some n, some e, some i => .success n e i
  | _, _, _ =>
      .failure ⟨requiredStringErrors fd.name, requiredStringErrors fd.email,
                requiredStringErrors fd.image_url⟩

/-- A row of the `invoices` table. The `id` column is database-assigned
(the INSERT in the source names only the other four columns). -/
structure Invoice where
  id : String
  customer_id : String
  amount : ℚ
  status : String
  date : String
deriving DecidableEq

/-- A row of the `customers` table; `id` is database-assigned. -/
structure Customer where
  id : String
  name : String
  email : String
  image_url : String
deriving DecidableEq

/-- The relational store: the two tables the pipeline writes. -/
structure Store where
  invoices : List Invoice
  customers : List Customer
deriving DecidableEq

/-- A value thrown by a `sql` call: either an `Error` instance carrying
a message, or a non-`Error` value. -/
inductive DbError
  | err (msg : String)
  | nonError
deriving DecidableEq

/-- `error instanceof Error ? error.message : ''` on a caught value. -/
def DbError.errMsg : DbError → String
  | .err m => m
  | .nonError => ""

/-- `INSERT INTO invoices (customer_id, amount, status, date) VALUES …`,
with the database-assigned id made explicit. -/
def insertInvoiceRow (s : Store) (freshId customerId : String) (amount : ℚ)
    (status date : String) : Store :=
  { s with invoices :=
      s.invoices ++ [⟨freshId, customerId, amount, status, date⟩] }

/-- `UPDATE invoices SET customer_id = …, amount = …, status = …
WHERE id = …`. -/
def updateInvoiceRows (s : Store) (id customerId : String) (amount : ℚ)
    (status : String) : Store :=
  { s with invoices := s.invoices.map (fun r =>
      if r.id = id then
        { r with customer_id := customerId, amount := amount,
                 status := status }
      else r) }

/-- `DELETE FROM invoices WHERE id = …`. -/
def deleteInvoiceRows (s : Store) (id : String) : Store :=
  { s with invoices := s.invoices.filter (fun r => ¬ r.id = id) }

/-- `INSERT INTO customers (name, email, image_url) VALUES …`, with the
database-assigned id made explicit. -/
def insertCustomerRow (s : Store) (freshId name email image_url : String) :
    Store :=
  { s with customers := s.customers ++ [⟨freshId, name, email, image_url⟩] }

/-- `UPDATE customers SET name = …, email = …, image_url = …
WHERE id = …`. -/
def updateCustomerRows (s : Store) (id name email image_url : String) :
    Store :=
  { s with customers := s.customers.map (fun r =>
      if r.id = id then
        { r with name := name, email := email, image_url := image_url }
      else r) }

/-- `DELETE FROM customers WHERE id = …`. -/
def deleteCustomerRows (s : Store) (id : String) : Store :=
  { s with customers := s.customers.filter (fun r => ¬ r.id = id) }

/-- The value of `SELECT COUNT(*) FROM invoices WHERE customer_id = id
AND status = 'pending'`. -/
def countPending (s : Store) (id : String) : Nat :=
  (s.invoices.filter
    (fun r => r.customer_id = id ∧ r.status = "pending")).length

/-- A row of the count query's result set; `count` is optional so the
defensive access `rows[0]?.count` in the source can be modelled on
arbitrary result sets. -/
structure CountRow where
  count : Option Nat
deriving DecidableEq

/-- The result set the count query produces on a store: exactly one row
holding the count. -/
def runCountQuery (s : Store) (id : String) : List CountRow :=
  [⟨some (countPending s id)⟩]

/-- `pendingInvoicesResult.rows[0]?.count || 0`: a missing row, a
missing count value, and a count of `0` all yield `0`. -/
def extractCount (rows : List CountRow) : Nat :=
  match rows.head? with
  | none => 0
  | some r =>
      match r.count with
      | none => 0
      | some n => n

/-- The `State` result shape of the invoice actions
(`{errors?, message?}`). -/
structure InvoiceState where
  errors : Option InvoiceFieldErrors
  message : Option String
deriving DecidableEq

/-- The `Statecustomers` result shape of the customer actions. -/
structure CustomerState where
  errors : Option CustomerFieldErrors
  message : Option String
deriving DecidableEq

/-- How an invoice action terminates: a returned `State`, a `redirect`
(control transfer, no return value), or an exception escaping the
action (never produced by the embedded code, present so that
"never throws" is expressible). -/
inductive InvoiceOutcome
  | returned (st : InvoiceState)
  | redirected (path : String)
  | thrown (e : DbError)
deriving DecidableEq

/-- How a customer create/update action terminates. -/
inductive CustomerOutcome
  | returned (st : CustomerState)
  | redirected (path : String)
  | thrown (e : DbError)
deriving DecidableEq

/-- Full effect of one invoice-action invocation: its terminal outcome,
the store afterwards, and the paths passed to `revalidatePath`. -/
structure InvoiceExec where
  outcome : InvoiceOutcome
  store : Store
  revalidated : List String
deriving DecidableEq

/-- Full effect of one customer create/update invocation. -/
structure CustomerExec where
  outcome : CustomerOutcome
  store : Store
  revalidated : List String
deriving DecidableEq

/-- `createInvoice(prevState, formData)`. `fail` injects a throw of the
INSERT; `today` is `new Date().toISOString().split('T')[0]`; `freshId`
the database-assigned id of the inserted row. -/
def createInvoice (fail : Option DbError) (today freshId : String)
    (fd : RawInvoiceForm) (s : Store) : InvoiceExec :=
  match parseInvoiceForm fd with
  | .failure errs =>
      ⟨.returned ⟨some errs, some "Missing Fields. Failed to Create Invoice."⟩,
       s, []⟩
  | .success customerId amount status =>
      let amountInCents := amount * 100
      match fail with
      | some e =>
          ⟨.returned ⟨none,
             some ("Database Error: Failed to Create Invoice. " ++ e.errMsg)⟩,
           s, []⟩
      | none =>
          ⟨.redirected "/dashboard/invoices",
           insertInvoiceRow s freshId customerId amountInCents status today,
           ["/dashboard/invoices"]⟩

/-- `updateInvoice(id, prevState, formData)`; `fail` injects a throw of
the UPDATE. -/
def updateInvoice (fail : Option DbError) (id : String)
    (fd : RawInvoiceForm) (s : Store) : InvoiceExec :=
  match parseInvoiceForm fd with
  | .failure errs =>
      ⟨.returned ⟨some errs, some "Missing Fields. Failed to Update Invoice."⟩,
       s, []⟩
  | .success customerId amount status =>
      let amountInCents := amount * 100
      match fail with
      | some e =>
          ⟨.returned ⟨none,
             some ("Database Error: Failed to Update Invoice. " ++ e.errMsg)⟩,
           s, []⟩
      | none =>
          ⟨.redirected "/dashboard/invoices",
           updateInvoiceRows s id customerId amountInCents status,
           ["/dashboard/invoices"]⟩

/-- Result of `deleteInvoice` / `deleteCustomers`: always a plain
`{message}` object. -/
structure MsgResult where
  message : String
deriving DecidableEq

/-- Effect of one `deleteInvoice` invocation. -/
structure DeleteInvoiceExec where
  result : MsgResult
  store : Store
  revalidated : List String
deriving DecidableEq

/-- `deleteInvoice(id)`; `fail` injects a throw of the DELETE. -/
def deleteInvoice (fail : Option DbError) (id : String) (s : Store) :
    DeleteInvoiceExec :=
  match fail with
  | some e =>
      ⟨⟨"Database Error: Failed to Delete Invoice. " ++ e.errMsg⟩, s, []⟩
  | none =>
      ⟨⟨"Deleted Invoice."⟩, deleteInvoiceRows s id, ["/dashboard/invoices"]⟩

/-- `createCustomers(prevState, formData)`; `fail` injects a throw of
the INSERT, `freshId` the database-assigned id. -/
def createCustomers (fail : Option DbError) (freshId : String)
    (fd : RawCustomerForm) (s : Store) : CustomerExec :=
  match parseCustomerForm fd with
  | .failure errs =>
      ⟨.returned ⟨some errs, some "Missing Fields. Failed to Create Customers."⟩,
       s, []⟩
  | .success name email image_url =>
      match fail with
      | some e =>
          ⟨.returned ⟨none,
             some ("Database Error: Failed to Create Customers. " ++ e.errMsg)⟩,
           s, []⟩
      | none =>
          ⟨.redirected "/dashboard/customers",
           insertCustomerRow s freshId name email image_url,
           ["/dashboard/customers"]⟩

/-- `updateCustomers(id, prevState, formData)`; `fail` injects a throw
of the UPDATE. -/
def updateCustomers (fail : Option DbError) (id : String)
    (fd : RawCustomerForm) (s : Store) : CustomerExec :=
  match parseCustomerForm fd with
  | .failure errs =>
      ⟨.returned ⟨some errs, some "Missing Fields. Failed to Update customers."⟩,
       s, []⟩
  | .success name email image_url =>
      match fail with
      | some e =>
          ⟨.returned ⟨none,
             some ("Database Error: Failed to Update customers. " ++ e.errMsg)⟩,
           s, []⟩
      | none =>
          ⟨.redirected "/dashboard/customers",
           updateCustomerRows s id name email image_url,
           ["/dashboard/customers"]⟩

/-- A database statement issued by `deleteCustomers`, for the event
trace of one invocation. -/
inductive DbStmt
  | countPendingStmt (customerId : String)
  | deleteCustomerStmt (customerId : String)
deriving DecidableEq

/-- Effect of one `deleteCustomers` invocation: the returned message,
the store afterwards, the revalidated paths, and the ordered trace of
SQL statements that were issued. -/
structure DeleteCustomersExec where
  result : MsgResult
  store : Store
  revalidated : List String
  trace : List DbStmt
deriving DecidableEq

/-- The part of `deleteCustomers` after the count query returned a
result set `rows`: extract `rows[0]?.count || 0`, reject with
"no se elimino" when positive, otherwise issue the DELETE.
`deleteFail` injects a throw of the DELETE (caught by the single
surrounding try/catch). -/
def deleteCustomersAfterCount (deleteFail : Option DbError) (id : String)
    (rows : List CountRow) (s : Store) : DeleteCustomersExec :=
  let pendingInvoices := extractCount rows
  if pendingInvoices > 0 then
    ⟨⟨"no se elimino"⟩, s, [], [.countPendingStmt id]⟩
  else
    match deleteFail with
    | some _ =>
        ⟨⟨"Database Error: Failed to delete customer."⟩, s, [],
         [.countPendingStmt id, .deleteCustomerStmt id]⟩
    | none =>
        ⟨⟨"Customer deleted successfully."⟩, deleteCustomerRows s id,
         ["/dashboard/customers"], [.countPendingStmt id, .deleteCustomerStmt id]⟩

/-- `deleteCustomers(id)`: run the pending-invoice count query
(`countFail` injects a throw of it), then the guarded delete. Note the
catch branch returns the fixed message
"Database Error: Failed to delete customer." without the cause. -/
def deleteCustomers (countFail deleteFail : Option DbError) (id : String)
    (s : Store) : DeleteCustomersExec :=
  match countFail with
  | some _ =>
      ⟨⟨"Database Error: Failed to delete customer."⟩, s, [],
       [.countPendingStmt id]⟩
  | none => deleteCustomersAfterCount deleteFail id (runCountQuery s id) s

/-- Outcome of `signIn('credentials', formData)` as observed by
`authenticate`: success, a thrown `AuthError` with its `type` string,
or a thrown value that is not an `AuthError`. -/
inductive SignInResult
  | ok
  | authError (errorType : String)
  | otherError (payload : String)
deriving DecidableEq

/-- How `authenticate` terminates: a returned value (`none` models the
`undefined` return on success) or a rethrown non-`AuthError` value. -/
inductive AuthOutcome
  | returns (s : Option String)
  | throws (payload : String)
deriving DecidableEq

/-- `authenticate(prevState, formData)`, as a function of the observed
`signIn` outcome. -/
def authenticate : SignInResult → AuthOutcome
  | .ok => .returns none
  | .authError t =>
      if t = "CredentialsSignin" then .returns (some "Invalid credentials.")
      else .returns (some "Something went wrong.")
  | .otherError p => .throws p

/-- Reading an invoice row back by id (`SELECT … WHERE id = …`). -/
def readInvoice (s : Store) (id : String) : Option Invoice :=
  s.invoices.find? (fun r => r.id = id)

/-- `needle` occurs as a contiguous substring of `hay`. -/
def strContains (hay needle : String) : Bool :=
  decide (needle.data <:+: hay.data)

/-! ## Helper lemmas -/

theorem jsNumber_50 : jsNumber (some "50") = some 50 := by
  have h : "50".data = ['5', '0'] := by decide
  simp [jsNumber, parseSignedDecimal, parseUnsignedDecimal, digitsToNat,
        trimChars, h]

theorem parseInvoiceForm_success (c a st : String) (q : ℚ)
    (hq : jsNumber (some a) = some q) (hpos : q > 0)
    (hst : st = "pending" ∨ st = "paid") :
    parseInvoiceForm ⟨some c, some a, some st⟩ = .success c q st := by
  unfold parseInvoiceForm
  simp only [hq]
  rw [if_pos ⟨hpos, hst⟩]

theorem parse_c1_50_pending :
    parseInvoiceForm ⟨some "c1", some "50", some "pending"⟩ =
      .success "c1" 50 "pending" :=
  parseInvoiceForm_success "c1" "50" "pending" 50 jsNumber_50 (by norm_num)
    (Or.inl rfl)

theorem parse_c2_50_paid :
    parseInvoiceForm ⟨some "c2", some "50", some "paid"⟩ =
      .success "c2" 50 "paid" :=
  parseInvoiceForm_success "c2" "50" "paid" 50 jsNumber_50 (by norm_num)
    (Or.inr rfl)

theorem parse_c1_50_paid :
    parseInvoiceForm ⟨some "c1", some "50", some "paid"⟩ =
      .success "c1" 50 "paid" :=
  parseInvoiceForm_success "c1" "50" "paid" 50 jsNumber_50 (by norm_num)
    (Or.inr rfl)

/-! ## Claims about `deleteCustomers` -/

/-- C1: for every customer id, when the count query succeeds: with at
least one pending invoice at check time the customer row is left
intact, the message is "no se elimino" and nothing is invalidated
(whatever the DELETE would have done); with zero pending invoices the
customer rows with that id are removed from the store, the customers
view is invalidated and the success message is returned. -/
theorem deleteCustomers_guarded_by_pending_count
    (deleteFail : Option DbError) (id : String) (s : Store) :
    (countPending s id > 0 →
      deleteCustomers none deleteFail id s =
        ⟨⟨"no se elimino"⟩, s, [], [.countPendingStmt id]⟩) ∧
    (countPending s id = 0 →
      deleteCustomers none none id s =
        ⟨⟨"Customer deleted successfully."⟩, deleteCustomerRows s id,
         ["/dashboard/customers"],
         [.countPendingStmt id, .deleteCustomerStmt id]⟩) := by
  constructor
  · intro h
    simp [deleteCustomers, deleteCustomersAfterCount, runCountQuery,
          extractCount, h]
  · intro h
    simp [deleteCustomers, deleteCustomersAfterCount, runCountQuery,
          extractCount, h]

/-- Witness for C1: a customer with one pending invoice is kept with
the rejection message; a customer with no pending invoice is deleted
with the success message. -/
theorem deleteCustomers_guarded_by_pending_count_witness :
    (deleteCustomers none none "c1"
        ⟨[⟨"i1", "c1", 5, "pending", "2026-01-01"⟩], [⟨"c1", "n", "e", "u"⟩]⟩ =
      ⟨⟨"no se elimino"⟩,
       ⟨[⟨"i1", "c1", 5, "pending", "2026-01-01"⟩], [⟨"c1", "n", "e", "u"⟩]⟩,
       [], [.countPendingStmt "c1"]⟩) ∧
    (deleteCustomers none none "c2" ⟨[], [⟨"c2", "n", "e", "u"⟩]⟩ =
      ⟨⟨"Customer deleted successfully."⟩, ⟨[], []⟩, ["/dashboard/customers"],
       [.countPendingStmt "c2", .deleteCustomerStmt "c2"]⟩) := by
  constructor
  · exact (deleteCustomers_guarded_by_pending_count none "c1"
      ⟨[⟨"i1", "c1", 5, "pending", "2026-01-01"⟩], [⟨"c1", "n", "e", "u"⟩]⟩).1
      (by decide)
  · exact ((deleteCustomers_guarded_by_pending_count none "c2"
      ⟨[], [⟨"c2", "n", "e", "u"⟩]⟩).2 (by decide)).trans (by decide)

/-- C5: in every execution of `deleteCustomers` the first statement
issued is the pending-invoice count; the DELETE is issued exactly when
the count query succeeded and the observed count was zero; and
whenever a DELETE is issued, the trace is the count statement followed
by the delete statement. -/
theorem deleteCustomers_count_precedes_delete
    (countFail deleteFail : Option DbError) (id : String) (s : Store) :
    ((deleteCustomers countFail deleteFail id s).trace.head? =
        some (.countPendingStmt id)) ∧
    (DbStmt.deleteCustomerStmt id ∈
        (deleteCustomers countFail deleteFail id s).trace ↔
      countFail = none ∧ countPending s id = 0) ∧
    (DbStmt.deleteCustomerStmt id ∈
        (deleteCustomers countFail deleteFail id s).trace →
      (deleteCustomers countFail deleteFail id s).trace =
        [.countPendingStmt id, .deleteCustomerStmt id]) := by
  cases countFail with
  | some e => simp [deleteCustomers]
  | none =>
      by_cases h : countPending s id = 0
      · cases deleteFail <;>
          simp [deleteCustomers, deleteCustomersAfterCount, runCountQuery,
                extractCount, h]
      · have hpos : countPending s id > 0 := Nat.pos_of_ne_zero h
        cases deleteFail <;>
          simp [deleteCustomers, deleteCustomersAfterCount, runCountQuery,
                extractCount, hpos, h]

/-- Witness for C5: with no pending invoices the trace is count then
delete, in that order. -/
theorem deleteCustomers_count_precedes_delete_witness :
    (deleteCustomers none none "c1" ⟨[], []⟩).trace =
      [.countPendingStmt "c1", .deleteCustomerStmt "c1"] :=
  (deleteCustomers_count_precedes_delete none none "c1" ⟨[], []⟩).2.2
    (by decide)

/-- C10: when the count query's result set has no row, or its first row
has no count value, `rows[0]?.count || 0` defaults to `0`: the
execution is identical to one that observed a count of zero, so (when
the DELETE does not throw) the customer rows are removed and the
success message returned — the absent count row is not an error. -/
theorem deleteCustomers_missing_count_row_defaults_to_zero
    (deleteFail : Option DbError) (id : String) (rows : List CountRow)
    (s : Store)
    (h : rows = [] ∨ ∃ r rest, rows = r :: rest ∧ r.count = none) :
    extractCount rows = 0 ∧
    deleteCustomersAfterCount deleteFail id rows s =
      deleteCustomersAfterCount deleteFail id [⟨some 0⟩] s ∧
    deleteCustomersAfterCount none id rows s =
      ⟨⟨"Customer deleted successfully."⟩, deleteCustomerRows s id,
       ["/dashboard/customers"],
       [.countPendingStmt id, .deleteCustomerStmt id]⟩ := by
  have h0 : extractCount rows = 0 := by
    rcases h with h | ⟨r, rest, hr, hc⟩
    · simp [h, extractCount]
    · simp [hr, extractCount, hc]
  refine ⟨h0, ?_, ?_⟩
  · have h1 : extractCount [(⟨some 0⟩ : CountRow)] = 0 := rfl
    simp [deleteCustomersAfterCount, h0, h1]
  · simp [deleteCustomersAfterCount, h0]

/-- Witness for C10: an empty result set leads to the delete of the
customer row. -/
theorem deleteCustomers_missing_count_row_defaults_to_zero_witness :
    extractCount [] = 0 ∧
    deleteCustomersAfterCount none "c1" [] ⟨[], [⟨"c1", "n", "e", "u"⟩]⟩ =
      ⟨⟨"Customer deleted successfully."⟩, ⟨[], []⟩, ["/dashboard/customers"],
       [.countPendingStmt "c1", .deleteCustomerStmt "c1"]⟩ := by
  have h := deleteCustomers_missing_count_row_defaults_to_zero none "c1" []
    ⟨[], [⟨"c1", "n", "e", "u"⟩]⟩ (Or.inl rfl)
  exact ⟨h.1, h.2.2.trans (by decide)⟩

/-! ## Validation claims -/

theorem jsNumber_0 : jsNumber (some "0") = some 0 := by
  have h : "0".data = ['0'] := by decide
  simp [jsNumber, parseSignedDecimal, parseUnsignedDecimal, digitsToNat,
        trimChars, h]

theorem parseInvoiceForm_amount_failure (fd : RawInvoiceForm) (q : ℚ)
    (hq : jsNumber fd.amount = some q) (hle : q ≤ 0) :
    ∃ errs : InvoiceFieldErrors,
      parseInvoiceForm fd = .failure errs ∧
      errs.amount = ["Please enter an amount greater than $0."] := by
  have ha : amountErrors fd.amount =
      ["Please enter an amount greater than $0."] := by
    simp [amountErrors, hq, not_lt.mpr hle]
  rcases hC : fd.customerId with _ | c <;> rcases hS : fd.status with _ | st
  · exact ⟨⟨customerIdErrors fd.customerId, amountErrors fd.amount,
      statusErrors fd.status⟩, by simp [parseInvoiceForm, hC, hS, hq], ha⟩
  · exact ⟨⟨customerIdErrors fd.customerId, amountErrors fd.amount,
      statusErrors fd.status⟩, by simp [parseInvoiceForm, hC, hS, hq], ha⟩
  · exact ⟨⟨customerIdErrors fd.customerId, amountErrors fd.amount,
      statusErrors fd.status⟩, by simp [parseInvoiceForm, hC, hS, hq], ha⟩
  · have hcond : ¬ (q > 0 ∧ (st = "pending" ∨ st = "paid")) :=
      fun h => not_lt.mpr hle h.1
    exact ⟨⟨[], amountErrors fd.amount, statusErrors fd.status⟩,
      by simp [parseInvoiceForm, hC, hS, hq, hcond], ha⟩

theorem statusErrors_ne_nil (v : FormVal)
    (hst : ∀ st, v = some st → st ≠ "pending" ∧ st ≠ "paid") :
    statusErrors v ≠ [] := by
  rcases h : v with _ | st
  · simp [statusErrors]
  · have h2 := hst st h
    simp [statusErrors, h2.1, h2.2]

theorem parseInvoiceForm_status_failure (fd : RawInvoiceForm)
    (hst : ∀ st, fd.status = some st → st ≠ "pending" ∧ st ≠ "paid") :
    ∃ errs : InvoiceFieldErrors,
      parseInvoiceForm fd = .failure errs ∧ errs.status ≠ [] := by
  have hs : statusErrors fd.status ≠ [] := statusErrors_ne_nil fd.status hst
  rcases hC : fd.customerId with _ | c <;>
    rcases hA : jsNumber fd.amount with _ | q <;>
      rcases hS : fd.status with _ | st
  · exact ⟨⟨customerIdErrors fd.customerId, amountErrors fd.amount,
      statusErrors fd.status⟩, by simp [parseInvoiceForm, hC, hS, hA], hs⟩
  · exact ⟨⟨customerIdErrors fd.customerId, amountErrors fd.amount,
      statusErrors fd.status⟩, by simp [parseInvoiceForm, hC, hS, hA], hs⟩
  · exact ⟨⟨customerIdErrors fd.customerId, amountErrors fd.amount,
      statusErrors fd.status⟩, by simp [parseInvoiceForm, hC, hS, hA], hs⟩
  · exact ⟨⟨customerIdErrors fd.customerId, amountErrors fd.amount,
      statusErrors fd.status⟩, by simp [parseInvoiceForm, hC, hS, hA], hs⟩
  · exact ⟨⟨customerIdErrors fd.customerId, amountErrors fd.amount,
      statusErrors fd.status⟩, by simp [parseInvoiceForm, hC, hS, hA], hs⟩
  · exact ⟨⟨customerIdErrors fd.customerId, amountErrors fd.amount,
      statusErrors fd.status⟩, by simp [parseInvoiceForm, hC, hS, hA], hs⟩
  · exact ⟨⟨customerIdErrors fd.customerId, amountErrors fd.amount,
      statusErrors fd.status⟩, by simp [parseInvoiceForm, hC, hS, hA], hs⟩
  · have h2 := hst st hS
    have hcond : ¬ (q > 0 ∧ (st = "pending" ∨ st = "paid")) := by
      rintro ⟨-, h3 | h3⟩
      · exact h2.1 h3
      · exact h2.2 h3
    exact ⟨⟨[], amountErrors fd.amount, statusErrors fd.status⟩,
      by simp [parseInvoiceForm, hC, hS, hA, hcond], hs⟩

/-- C2: for every invoice form whose amount coerces to a value `≤ 0`,
`createInvoice` and `updateInvoice` return the validation-error result
(field error on `amount`, with the `gt` violation message) and leave
the store untouched with no invalidation; for every form whose status
field is not exactly `pending` or `paid`, they return a field error on
`status` and leave the store untouched. -/
theorem invoice_validation_rejects_bad_amount_and_status :
    (∀ (fail : Option DbError) (today freshId id : String)
        (fd : RawInvoiceForm) (s : Store) (q : ℚ),
      jsNumber fd.amount = some q → q ≤ 0 →
      ∃ errs : InvoiceFieldErrors,
        errs.amount = ["Please enter an amount greater than $0."] ∧
        createInvoice fail today freshId fd s =
          ⟨.returned ⟨some errs,
             some "Missing Fields. Failed to Create Invoice."⟩, s, []⟩ ∧
        updateInvoice fail id fd s =
          ⟨.returned ⟨some errs,
             some "Missing Fields. Failed to Update Invoice."⟩, s, []⟩) ∧
    (∀ (fail : Option DbError) (today freshId id : String)
        (fd : RawInvoiceForm) (s : Store),
      (∀ st, fd.status = some st → st ≠ "pending" ∧ st ≠ "paid") →
      ∃ errs : InvoiceFieldErrors,
        errs.status ≠ [] ∧
        createInvoice fail today freshId fd s =
          ⟨.returned ⟨some errs,
             some "Missing Fields. Failed to Create Invoice."⟩, s, []⟩ ∧
        updateInvoice fail id fd s =
          ⟨.returned ⟨some errs,
             some "Missing Fields. Failed to Update Invoice."⟩, s, []⟩) := by
  constructor
  · intro fail today freshId id fd s q hq hle
    obtain ⟨errs, hp, ha⟩ := parseInvoiceForm_amount_failure fd q hq hle
    exact ⟨errs, ha, by simp [createInvoice, hp], by simp [updateInvoice, hp]⟩
  · intro fail today freshId id fd s hst
    obtain ⟨errs, hp, hs⟩ := parseInvoiceForm_status_failure fd hst
    exact ⟨errs, hs, by simp [createInvoice, hp], by simp [updateInvoice, hp]⟩

/-- Witness for C2: amount `"0"` and status `"nope"` are each rejected
with a field error and no state change. -/
theorem invoice_validation_rejects_bad_amount_and_status_witness :
    (∃ errs : InvoiceFieldErrors,
      errs.amount = ["Please enter an amount greater than $0."] ∧
      createInvoice none "2026-10-11" "i9"
          ⟨some "c1", some "0", some "pending"⟩ ⟨[], []⟩ =
        ⟨.returned ⟨some errs, some "Missing Fields. Failed to Create Invoice."⟩,
         ⟨[], []⟩, []⟩ ∧
      updateInvoice none "i1" ⟨some "c1", some "0", some "pending"⟩ ⟨[], []⟩ =
        ⟨.returned ⟨some errs, some "Missing Fields. Failed to Update Invoice."⟩,
         ⟨[], []⟩, []⟩) ∧
    (∃ errs : InvoiceFieldErrors,
      errs.status ≠ [] ∧
      createInvoice none "2026-10-11" "i9"
          ⟨some "c1", some "50", some "nope"⟩ ⟨[], []⟩ =
        ⟨.returned ⟨some errs, some "Missing Fields. Failed to Create Invoice."⟩,
         ⟨[], []⟩, []⟩ ∧
      updateInvoice none "i1" ⟨some "c1", some "50", some "nope"⟩ ⟨[], []⟩ =
        ⟨.returned ⟨some errs, some "Missing Fields. Failed to Update Invoice."⟩,
         ⟨[], []⟩, []⟩) := by
  constructor
  · exact invoice_validation_rejects_bad_amount_and_status.1 none "2026-10-11"
      "i9" "i1" ⟨some "c1", some "0", some "pending"⟩ ⟨[], []⟩ 0 jsNumber_0
      (by norm_num)
  · refine invoice_validation_rejects_bad_amount_and_status.2 none "2026-10-11"
      "i9" "i1" ⟨some "c1", some "50", some "nope"⟩ ⟨[], []⟩ ?_
    intro st h
    cases h
    exact ⟨by decide, by decide⟩

/-- C7: for every raw form input — absent fields and non-numeric amount
strings included — and any injected storage behaviour, no validated
operation terminates by throwing: each returns a result or redirects.
A non-numeric amount (NaN after coercion) yields a validation failure
carrying the type-error message on `amount`, not an exception. -/
theorem validation_never_throws (fail : Option DbError)
    (today freshId id : String) (fd : RawInvoiceForm)
    (fdc : RawCustomerForm) (s : Store) (e : DbError) :
    ((createInvoice fail today freshId fd s).outcome ≠ .thrown e) ∧
    ((updateInvoice fail id fd s).outcome ≠ .thrown e) ∧
    ((createCustomers fail freshId fdc s).outcome ≠ .thrown e) ∧
    ((updateCustomers fail id fdc s).outcome ≠ .thrown e) ∧
    (jsNumber fd.amount = none →
      ∃ errs : InvoiceFieldErrors,
        parseInvoiceForm fd = .failure errs ∧
        errs.amount = ["Expected number, received nan"]) := by
  refine ⟨?_, ?_, ?_, ?_, ?_⟩
  · rcases hp : parseInvoiceForm fd with errs | ⟨c, q, st⟩ <;>
      rcases fail with _ | e' <;> simp [createInvoice, hp]
  · rcases hp : parseInvoiceForm fd with errs | ⟨c, q, st⟩ <;>
      rcases fail with _ | e' <;> simp [updateInvoice, hp]
  · rcases hp : parseCustomerForm fdc with errs | ⟨n, em, u⟩ <;>
      rcases fail with _ | e' <;> simp [createCustomers, hp]
  · rcases hp : parseCustomerForm fdc with errs | ⟨n, em, u⟩ <;>
      rcases fail with _ | e' <;> simp [updateCustomers, hp]
  · intro hnan
    have ha : amountErrors fd.amount = ["Expected number, received nan"] := by
      simp [amountErrors, hnan]
    rcases hC : fd.customerId with _ | c <;> rcases hS : fd.status with _ | st
    · exact ⟨⟨customerIdErrors fd.customerId, amountErrors fd.amount,
        statusErrors fd.status⟩, by simp [parseInvoiceForm, hC, hS, hnan], ha⟩
    · exact ⟨⟨customerIdErrors fd.customerId, amountErrors fd.amount,
        statusErrors fd.status⟩, by simp [parseInvoiceForm, hC, hS, hnan], ha⟩
    · exact ⟨⟨customerIdErrors fd.customerId, amountErrors fd.amount,
        statusErrors fd.status⟩, by simp [parseInvoiceForm, hC, hS, hnan], ha⟩
    · exact ⟨⟨customerIdErrors fd.customerId, amountErrors fd.amount,
        statusErrors fd.status⟩, by simp [parseInvoiceForm, hC, hS, hnan], ha⟩

/-- Witness for C7: the non-numeric amount `"abc"` on an otherwise
complete form produces the NaN field error rather than an exception. -/
theorem validation_never_throws_witness :
    ((createInvoice none "2026-10-11" "i9"
        ⟨some "c1", some "abc", some "pending"⟩ ⟨[], []⟩).outcome ≠
      .thrown (.err "x")) ∧
    (∃ errs : InvoiceFieldErrors,
      parseInvoiceForm ⟨some "c1", some "abc", some "pending"⟩ =
        .failure errs ∧
      errs.amount = ["Expected number, received nan"]) := by
  have h := validation_never_throws none "2026-10-11" "i9" "i1"
    ⟨some "c1", some "abc", some "pending"⟩ ⟨none, none, none⟩ ⟨[], []⟩
    (.err "x")
  refine ⟨h.1, h.2.2.2.2 ?_⟩
  have hd : "abc".data = ['a', 'b', 'c'] := by decide
  simp [jsNumber, trimChars, parseSignedDecimal, parseUnsignedDecimal, hd]

/-- C3: for every invoice create input the schema accepts with
customer `c`, coerced amount `q` (major units) and status `st`, and a
non-failing INSERT, `createInvoice` appends exactly one row holding
`customer_id = c`, `amount = q * 100` (minor units), `status = st` and
`date = today` (the current calendar day in ISO form), invalidates the
invoices view, and redirects to the invoices listing. -/
theorem createInvoice_persists_scaled_amount_and_today
    (today freshId : String) (fd : RawInvoiceForm) (s : Store)
    (c : String) (q : ℚ) (st : String)
    (h : parseInvoiceForm fd = .success c q st) :
    createInvoice none today freshId fd s =
      ⟨.redirected "/dashboard/invoices",
       { s with invoices := s.invoices ++ [⟨freshId, c, q * 100, st, today⟩] },
       ["/dashboard/invoices"]⟩ := by
  simp [createInvoice, h, insertInvoiceRow]

/-- Witness for C3, the spec's concrete scenario: input
`{customerId:'c1', amount:'50', status:'pending'}` on an empty store
stores the row `{customer_id:'c1', amount:5000, status:'pending',
date:today}` and redirects to the invoices listing. -/
theorem createInvoice_persists_scaled_amount_and_today_witness :
    createInvoice none "2026-10-11" "i1"
        ⟨some "c1", some "50", some "pending"⟩ ⟨[], []⟩ =
      ⟨.redirected "/dashboard/invoices",
       ⟨[⟨"i1", "c1", 5000, "pending", "2026-10-11"⟩], []⟩,
       ["/dashboard/invoices"]⟩ := by
  have h := createInvoice_persists_scaled_amount_and_today "2026-10-11" "i1"
    ⟨some "c1", some "50", some "pending"⟩ ⟨[], []⟩ "c1" 50 "pending"
    parse_c1_50_pending
  rw [h]
  norm_num

/-- C6: `authenticate` returns nothing on success; an `AuthError` of
type `CredentialsSignin` yields the string "Invalid credentials.";
any other `AuthError` yields "Something went wrong."; a thrown value
that is not an `AuthError` is rethrown unmodified. -/
theorem authenticate_classifies_auth_errors :
    authenticate .ok = .returns none ∧
    authenticate (.authError "CredentialsSignin") =
      .returns (some "Invalid credentials.") ∧
    (∀ t, t ≠ "CredentialsSignin" →
      authenticate (.authError t) =
        .returns (some "Something went wrong.")) ∧
    (∀ p, authenticate (.otherError p) = .throws p) := by
  refine ⟨rfl, by simp [authenticate], ?_, fun p => rfl⟩
  intro t ht
  simp [authenticate, ht]

/-- Witness for C6: an `AuthError` of another type maps to the generic
message. -/
theorem authenticate_classifies_auth_errors_witness :
    authenticate (.authError "CallbackRouteError") =
      .returns (some "Something went wrong.") :=
  authenticate_classifies_auth_errors.2.2.1 "CallbackRouteError" (by decide)

/-! ## Storage-failure claims -/

theorem strContains_append_left (p m n : String) (h : n.data <+: p.data) :
    strContains (p ++ m) n = true := by
  have h2 : n.data <:+: p.data ++ m.data :=
    (h.trans (List.prefix_append p.data m.data)).isInfix
  simp [strContains, String.data_append, h2]

theorem parse_n_e_u : parseCustomerForm ⟨some "n", some "e", some "u"⟩ =
    .success "n" "e" "u" := rfl

/-- C4 (counterexample): with a cause message available ("boom"), the
message returned by `deleteCustomers` after a throwing DELETE is the
fixed string "Database Error: Failed to delete customer." — the cause
is not appended. -/
theorem deleteCustomers_drops_cause_counterexample :
    (deleteCustomers none (some (.err "boom")) "c1"
        ⟨[], [⟨"c1", "n", "e", "u"⟩]⟩).result.message =
      "Database Error: Failed to delete customer." ∧
    strContains (deleteCustomers none (some (.err "boom")) "c1"
        ⟨[], [⟨"c1", "n", "e", "u"⟩]⟩).result.message "boom" = false := by
  decide

/-- C4 (amended): every operation catches a throwing storage call and
returns a result whose message contains "Database Error", leaving the
store unchanged with no invalidation; the five invoice/customer
create, update and invoice-delete operations append the original cause
message, while `deleteCustomers` returns a fixed message without the
cause. -/
theorem storage_failure_returns_database_error
    (e : DbError) (df : Option DbError) (today freshId id : String)
    (s : Store) (fd : RawInvoiceForm) (fdc : RawCustomerForm)
    (cI : String) (qI : ℚ) (stI : String)
    (hfd : parseInvoiceForm fd = .success cI qI stI)
    (n em u : String)
    (hfdc : parseCustomerForm fdc = .success n em u) :
    (createInvoice (some e) today freshId fd s =
      ⟨.returned ⟨none,
         some ("Database Error: Failed to Create Invoice. " ++ e.errMsg)⟩,
       s, []⟩ ∧
     strContains ("Database Error: Failed to Create Invoice. " ++ e.errMsg)
       "Database Error" = true) ∧
    (updateInvoice (some e) id fd s =
      ⟨.returned ⟨none,
         some ("Database Error: Failed to Update Invoice. " ++ e.errMsg)⟩,
       s, []⟩ ∧
     strContains ("Database Error: Failed to Update Invoice. " ++ e.errMsg)
       "Database Error" = true) ∧
    (deleteInvoice (some e) id s =
      ⟨⟨"Database Error: Failed to Delete Invoice. " ++ e.errMsg⟩, s, []⟩ ∧
     strContains ("Database Error: Failed to Delete Invoice. " ++ e.errMsg)
       "Database Error" = true) ∧
    (createCustomers (some e) freshId fdc s =
      ⟨.returned ⟨none,
         some ("Database Error: Failed to Create Customers. " ++ e.errMsg)⟩,
       s, []⟩ ∧
     strContains ("Database Error: Failed to Create Customers. " ++ e.errMsg)
       "Database Error" = true) ∧
    (updateCustomers (some e) id fdc s =
      ⟨.returned ⟨none,
         some ("Database Error: Failed to Update customers. " ++ e.errMsg)⟩,
       s, []⟩ ∧
     strContains ("Database Error: Failed to Update customers. " ++ e.errMsg)
       "Database Error" = true) ∧
    (deleteCustomers (some e) df id s =
      ⟨⟨"Database Error: Failed to delete customer."⟩, s, [],
       [.countPendingStmt id]⟩ ∧
     (countPending s id = 0 →
       deleteCustomers none (some e) id s =
         ⟨⟨"Database Error: Failed to delete customer."⟩, s, [],
          [.countPendingStmt id, .deleteCustomerStmt id]⟩) ∧
     strContains "Database Error: Failed to delete customer."
       "Database Error" = true) := by
  refine ⟨⟨by simp [createInvoice, hfd], ?_⟩,
          ⟨by simp [updateInvoice, hfd], ?_⟩,
          ⟨rfl, ?_⟩,
          ⟨by simp [createCustomers, hfdc], ?_⟩,
          ⟨by simp [updateCustomers, hfdc], ?_⟩,
          rfl, ?_, by decide⟩
  · exact strContains_append_left _ e.errMsg _
      ⟨": Failed to Create Invoice. ".data, by decide⟩
  · exact strContains_append_left _ e.errMsg _
      ⟨": Failed to Update Invoice. ".data, by decide⟩
  · exact strContains_append_left _ e.errMsg _
      ⟨": Failed to Delete Invoice. ".data, by decide⟩
  · exact strContains_append_left _ e.errMsg _
      ⟨": Failed to Create Customers. ".data, by decide⟩
  · exact strContains_append_left _ e.errMsg _
      ⟨": Failed to Update customers. ".data, by decide⟩
  · intro h
    simp [deleteCustomers, deleteCustomersAfterCount, runCountQuery,
          extractCount, h]

/-- Witness for amended C4: a throwing INSERT with cause "boom" yields
the create-invoice database-error message with the cause appended and
an unchanged store, and a throwing DELETE in `deleteCustomers` yields
the fixed message with an unchanged store. -/
theorem storage_failure_returns_database_error_witness :
    (createInvoice (some (.err "boom")) "2026-10-11" "i1"
        ⟨some "c1", some "50", some "pending"⟩ ⟨[], []⟩ =
      ⟨.returned ⟨none,
         some "Database Error: Failed to Create Invoice. boom"⟩,
       ⟨[], []⟩, []⟩) ∧
    (deleteCustomers none (some (.err "boom")) "c9" ⟨[], []⟩ =
      ⟨⟨"Database Error: Failed to delete customer."⟩, ⟨[], []⟩, [],
       [.countPendingStmt "c9", .deleteCustomerStmt "c9"]⟩) := by
  have h := storage_failure_returns_database_error (.err "boom") none
    "2026-10-11" "i1" "c9" ⟨[], []⟩ ⟨some "c1", some "50", some "pending"⟩
    ⟨some "n", some "e", some "u"⟩ "c1" 50 "pending" parse_c1_50_pending
    "n" "e" "u" parse_n_e_u
  exact ⟨h.1.1.trans (by decide), (h.2.2.2.2.2.2.1 (by decide)).trans (by decide)⟩

/-! ## Round-trip claim -/

theorem find_updateInvoiceRows (l : List Invoice) (id c : String) (a : ℚ)
    (st : String) :
    (l.map (fun r => if r.id = id then
        { r with customer_id := c, amount := a, status := st } else r)).find?
      (fun r => r.id = id) =
    (l.find? (fun r => r.id = id)).map (fun r =>
      { r with customer_id := c, amount := a, status := st }) := by
  induction l with
  | nil => rfl
  | cons head tail ih =>
      by_cases h : head.id = id
      · simp [List.find?, h]
      · simp [List.find?, h, ih]

/-- C8 (counterexample): the round-trip fails as universally stated.
With stored invoice `{id:'i1', customer:'c1', status:'pending'}`:
updating with the form `{customerId:'c2', amount:'50', status:'paid'}`
(status is 'paid') changes the customer reference to 'c2'; updating
with the form `{status:'paid'}` alone fails validation, so the read
back still yields status 'pending'. -/
theorem updateInvoice_roundtrip_counterexample :
    ((readInvoice (updateInvoice none "i1"
          ⟨some "c2", some "50", some "paid"⟩
          ⟨[⟨"i1", "c1", 7, "pending", "2026-01-01"⟩], []⟩).store "i1").map
        Invoice.customer_id = some "c2" ∧ ("c2" : String) ≠ "c1") ∧
    ((updateInvoice none "i1" ⟨none, none, some "paid"⟩
        ⟨[⟨"i1", "c1", 7, "pending", "2026-01-01"⟩], []⟩).store =
      ⟨[⟨"i1", "c1", 7, "pending", "2026-01-01"⟩], []⟩ ∧
     (readInvoice (updateInvoice none "i1" ⟨none, none, some "paid"⟩
          ⟨[⟨"i1", "c1", 7, "pending", "2026-01-01"⟩], []⟩).store "i1").map
        Invoice.status = some "pending" ∧ ("pending" : String) ≠ "paid") := by
  refine ⟨⟨?_, by decide⟩, by decide⟩
  simp [updateInvoice, parse_c2_50_paid, updateInvoiceRows, readInvoice,
        List.find?]

/-- C8 (amended): for every stored invoice, updating it through
`updateInvoice` with a form that passes validation, whose status is
'paid' and whose customerId equals the invoice's stored customer
reference, followed by reading the row back, yields status 'paid' and
the unchanged customer reference. -/
theorem updateInvoice_roundtrip_paid (id : String) (fd : RawInvoiceForm)
    (s : Store) (inv : Invoice) (q : ℚ)
    (hread : readInvoice s id = some inv)
    (hfd : parseInvoiceForm fd = .success inv.customer_id q "paid") :
    ∃ inv', readInvoice (updateInvoice none id fd s).store id = some inv' ∧
      inv'.status = "paid" ∧ inv'.customer_id = inv.customer_id := by
  refine ⟨{ inv with amount := q * 100, status := "paid" }, ?_, rfl, rfl⟩
  have h1 : (updateInvoice none id fd s).store =
      updateInvoiceRows s id inv.customer_id (q * 100) "paid" := by
    simp [updateInvoice, hfd]
  rw [h1]
  simp only [readInvoice, updateInvoiceRows] at hread ⊢
  rw [find_updateInvoiceRows, hread]
  rfl

/-- Witness for amended C8: updating the stored invoice
`{id:'i1', customer:'c1', amount:7, status:'pending'}` with the form
`{customerId:'c1', amount:'50', status:'paid'}` and reading back gives
status 'paid' and the unchanged customer 'c1'. -/
theorem updateInvoice_roundtrip_paid_witness :
    ∃ inv', readInvoice (updateInvoice none "i1"
        ⟨some "c1", some "50", some "paid"⟩
        ⟨[⟨"i1", "c1", 7, "pending", "2026-01-01"⟩], []⟩).store "i1" =
      some inv' ∧ inv'.status = "paid" ∧ inv'.customer_id = "c1" :=
  updateInvoice_roundtrip_paid "i1" ⟨some "c1", some "50", some "paid"⟩
    ⟨[⟨"i1", "c1", 7, "pending", "2026-01-01"⟩], []⟩
    ⟨"i1", "c1", 7, "pending", "2026-01-01"⟩ 50 rfl parse_c1_50_paid

/-! ## Customer-validation claim -/

theorem parseCustomerForm_failure (fdc : RawCustomerForm)
    (h : fdc.name = none ∨ fdc.email = none ∨ fdc.image_url = none) :
    parseCustomerForm fdc =
      .failure ⟨requiredStringErrors fdc.name, requiredStringErrors fdc.email,
                requiredStringErrors fdc.image_url⟩ := by
  rcases hN : fdc.name with _ | n <;> rcases hE : fdc.email with _ | em <;>
    rcases hU : fdc.image_url with _ | u <;> simp_all [parseCustomerForm]

/-- C9 (counterexample): an input with an empty name (and non-empty
email) passes validation and is written: `createCustomers` inserts a
customer row whose name is the empty string, and `updateCustomers`
overwrites a row's name with the empty string — neither is rejected. -/
theorem customer_empty_name_accepted_counterexample :
    createCustomers none "k1" ⟨some "", some "e@x.com", some "img"⟩
        ⟨[], []⟩ =
      ⟨.redirected "/dashboard/customers",
       ⟨[], [⟨"k1", "", "e@x.com", "img"⟩]⟩, ["/dashboard/customers"]⟩ ∧
    updateCustomers none "k1" ⟨some "", some "e@x.com", some "img"⟩
        ⟨[], [⟨"k1", "old", "e", "u"⟩]⟩ =
      ⟨.redirected "/dashboard/customers",
       ⟨[], [⟨"k1", "", "e@x.com", "img"⟩]⟩, ["/dashboard/customers"]⟩ := by
  decide

/-- C9 (amended): customer validation rejects only absent (null)
fields, before any write; any present string — the empty string
included — is accepted for name, email and image_url, so a customer
row created or updated through the coordinator can carry an empty name
or email. -/
theorem customer_validation_only_rejects_absent_fields :
    (∀ (fail : Option DbError) (freshId id : String)
        (fdc : RawCustomerForm) (s : Store),
      (fdc.name = none ∨ fdc.email = none ∨ fdc.image_url = none) →
      ∃ errs : CustomerFieldErrors,
        createCustomers fail freshId fdc s =
          ⟨.returned ⟨some errs,
             some "Missing Fields. Failed to Create Customers."⟩, s, []⟩ ∧
        updateCustomers fail id fdc s =
          ⟨.returned ⟨some errs,
             some "Missing Fields. Failed to Update customers."⟩, s, []⟩) ∧
    (∀ (freshId id : String) (n e u : String) (s : Store),
      createCustomers none freshId ⟨some n, some e, some u⟩ s =
        ⟨.redirected "/dashboard/customers", insertCustomerRow s freshId n e u,
         ["/dashboard/customers"]⟩ ∧
      updateCustomers none id ⟨some n, some e, some u⟩ s =
        ⟨.redirected "/dashboard/customers", updateCustomerRows s id n e u,
         ["/dashboard/customers"]⟩) := by
  constructor
  · intro fail freshId id fdc s h
    have hp := parseCustomerForm_failure fdc h
    exact ⟨⟨requiredStringErrors fdc.name, requiredStringErrors fdc.email,
      requiredStringErrors fdc.image_url⟩,
      by simp [createCustomers, hp], by simp [updateCustomers, hp]⟩
  · intro freshId id n e u s
    exact ⟨by simp [createCustomers, parseCustomerForm],
           by simp [updateCustomers, parseCustomerForm]⟩

/-- Witness for amended C9: an absent name is rejected with no write;
an empty-string name is accepted and written. -/
theorem customer_validation_only_rejects_absent_fields_witness :
    (∃ errs : CustomerFieldErrors,
      createCustomers none "k1" ⟨none, some "e", some "u"⟩ ⟨[], []⟩ =
        ⟨.returned ⟨some errs,
           some "Missing Fields. Failed to Create Customers."⟩, ⟨[], []⟩, []⟩ ∧
      updateCustomers none "k1" ⟨none, some "e", some "u"⟩ ⟨[], []⟩ =
        ⟨.returned ⟨some errs,
           some "Missing Fields. Failed to Update customers."⟩, ⟨[], []⟩, []⟩) ∧
    createCustomers none "k1" ⟨some "", some "e", some "u"⟩ ⟨[], []⟩ =
      ⟨.redirected "/dashboard/customers",
       insertCustomerRow ⟨[], []⟩ "k1" "" "e" "u",
       ["/dashboard/customers"]⟩ :=
  ⟨customer_validation_only_rejects_absent_fields.1 none "k1" "k1"
      ⟨none, some "e", some "u"⟩ ⟨[], []⟩ (Or.inl rfl),
   (customer_validation_only_rejects_absent_fields.2 "k1" "k1" "" "e" "u"
      ⟨[], []⟩).1⟩
